import Mathlib

/-!
Shallow embedding of the replication / command-pipeline core of the
single-node key-value server in `src/app/redis_server.py`.

Conventions:
* Python strings are Lean `String`s; byte frames on the wire are `String`s
  holding the exact ASCII framing.
* Python `dict` keyspace is an insertion-ordered association list
  (`Store`), matching CPython's ordered-dict semantics.
* Machine integers are `Int` (Python ints are unbounded).
* Real time is passed in explicitly (`now`), and the WAIT poll loop is
  modelled by a fuel argument derived from the timeout.
-/

namespace RedisModel

/-! ### Python string primitives (modelled on `List Char` so everything
kernel-reduces; Python `str` indexing/slicing is by code point). -/

def pyStartsWith (s pat : String) : Bool :=
  pat.data.isPrefixOf s.data

def pyDrop (s : String) (n : Nat) : String :=
  ⟨s.data.drop n⟩

def pyUpper (s : String) : String :=
  ⟨s.data.map Char.toUpper⟩

def pyLower (s : String) : String :=
  ⟨s.data.map Char.toLower⟩

def pyContainsChar (s : String) (c : Char) : Bool :=
  s.data.contains c

def splitOnCharAux (sep : Char) : List Char → List Char → List String
  | [], acc => [⟨acc.reverse⟩]
  | c :: rest, acc =>
    if c = sep then ⟨acc.reverse⟩ :: splitOnCharAux sep rest []
    else splitOnCharAux sep rest (c :: acc)

/-- Python `s.split(sep)` for a one-character separator. -/
def pySplitChar (s : String) (sep : Char) : List String :=
  splitOnCharAux sep s.data []

/-! ### Python `int(str)` model: optional surrounding whitespace, optional
sign, then base-10 digits with single underscores allowed between digits. -/

def isPySpace (c : Char) : Bool :=
  c = ' ' ∨ c = '\t' ∨ c = '\n' ∨ c = '\r' ∨ c = '\x0b' ∨ c = '\x0c'

def isDigitChar (c : Char) : Bool :=
  '0' ≤ c ∧ c ≤ '9'

def digitVal (c : Char) : Nat := c.toNat - 48

def pyDigitsAux : List Char → Nat → Option Nat
  | [], acc => some acc
  | '_' :: c :: rest, acc =>
    if isDigitChar c then pyDigitsAux rest (acc * 10 + digitVal c) else none
  | ['_'], _ => none
  | c :: rest, acc =>
    if isDigitChar c then pyDigitsAux rest (acc * 10 + digitVal c) else none

def pyDigits : List Char → Option Nat
  | [] => none
  | c :: rest => if isDigitChar c then pyDigitsAux rest (digitVal c) else none

/-- Python `int(s)` in base 10, returning `none` where CPython raises
`ValueError`. -/
def pythonIntParse (s : String) : Option Int :=
  let t := ((s.data.dropWhile isPySpace).reverse.dropWhile isPySpace).reverse
  match t with
  | [] => none
  | '-' :: rest => (pyDigits rest).map (fun n => -(n : Int))
  | '+' :: rest => (pyDigits rest).map (fun n => (n : Int))
  | l => (pyDigits l).map (fun n => (n : Int))

/-! ### RESP wire encoders.

Modelled from the spec: `resp.py` (class `RESPProtocol`) is not under
`src/`; §4.1/§6 of the spec fix the byte-exact framing: simple string
`+s\r\n`, error `-e\r\n`, integer `:n\r\n`, bulk `$<len>\r\n<bytes>\r\n`
with null variant `$-1\r\n`, array `*<n>\r\n` followed by the elements as
bulk strings. -/

def encodeSimpleString (s : String) : String := "+" ++ s ++ "\r\n"

def encodeError (s : String) : String := "-" ++ s ++ "\r\n"

def encodeInteger (n : Int) : String := ":" ++ toString n ++ "\r\n"

def encodeBulkString : Option String → String
  | none => "$-1\r\n"
  | some s => "$" ++ toString s.utf8ByteSize ++ "\r\n" ++ s ++ "\r\n"

def encodeArray (xs : List String) : String :=
  "*" ++ toString xs.length ++ "\r\n" ++
    String.join (xs.map (fun x => encodeBulkString (some x)))

/-! ### Keyspace: `data_store : Dict[str, Tuple[str, Optional[int]]]`,
an insertion-ordered map from key to (value, optional absolute expiry ms). -/

abbrev Entry := String × Option Int

abbrev Store := List (String × Entry)

def slookup : Store → String → Option Entry
  | [], _ => none
  | (k0, e0) :: rest, k => if k0 = k then some e0 else slookup rest k

/-- Python `d[k] = e`: replace in place if present (keeping insertion
order), else append. -/
def storeSet : Store → String → Entry → Store
  | [], k, e => [(k, e)]
  | (k0, e0) :: rest, k, e =>
    if k0 = k then (k, e) :: rest else (k0, e0) :: storeSet rest k e

/-- Python `del d[k]` (keys are unique in a dict). -/
def storeDel : Store → String → Store
  | [], _ => []
  | (k0, e0) :: rest, k => if k0 = k then rest else (k0, e0) :: storeDel rest k

def storeKeys (s : Store) : List String := s.map Prod.fst

/-- Python `d.update(d2)`. -/
def storeUpdate (s d : Store) : Store :=
  d.foldl (fun acc kv => storeSet acc kv.1 kv.2) s

/-! ### Process state.

One client connection is modelled (the `transactions` dict keyed by writer
collapses to the `txn` field: `none` = NORMAL, `some q` = IN_TRANSACTION
with queued `(command, args)` pairs).  The `ReplicationManager` fields are
those named by §3 of the spec and read/written by `redis_server.py`;
`props` is the log of commands handed to `propagate_to_replicas`, and
`rdbSaves` counts snapshot persists (`_save_rdb`). -/

structure ServerState where
  dataStore : Store
  txn : Option (List (String × List String))
  role : String
  masterReplid : String
  masterHost : Option String
  masterPort : Option Int
  generation : Int
  highestSeenGeneration : Int
  electionState : String
  replicas : List Int
  masterReplOffset : Int
  hasPendingWrites : Bool
  props : List (String × List String)
  rdbSaves : Nat
  deriving DecidableEq

/-- External inputs of one command execution: the wall clock, the RDB file
contents (snapshot collaborator), and the upstream master link (`some r`
means the master is reachable and replies with raw bytes `r`; `none`
means `asyncio.open_connection`/IO raised, with `str(e)` = `linkErrMsg`). -/
structure Env where
  now : Int
  rdbData : Store
  masterLink : Option String
  linkErrMsg : String
  dirPath : String
  dbfilename : String

/-- Everything a handler writes: bytes to the client, the frame sent to the
master when forwarding, or delegation to the replication handshake
handlers (which live in `replication.py`). -/
inductive Output where
  | bytes (s : String)
  | forward (s : String)
  | replconf (args : List String)
  | psync (args : List String)
  deriving DecidableEq

/-- `Redis.is_key_expired`: absent keys count as expired; `None` expiry
never expires; otherwise expired iff `now >= expiry`. -/
def isKeyExpired (store : Store) (key : String) (now : Int) : Bool :=
  match slookup store key with
  | none => true
  | some (_, none) => false
  | some (_, some e) => e ≤ now

/-- Modelled from the spec: `ReplicationManager.propagate_to_replicas` is
in `replication.py`, not under `src/`.  Per §4.4/§4.5 a propagated write is
re-encoded as a wire frame, written to every live replica, advances
`master_repl_offset` by the exact byte length of the re-encoded command,
and marks that a write has been accepted as master.  We record the
propagated `(command, args)` in the `props` log. -/
def propagate (cmd : String) (args : List String) (st : ServerState) : ServerState :=
  { st with
    props := st.props ++ [(cmd, args)]
    masterReplOffset := st.masterReplOffset + (encodeArray (cmd :: args)).utf8ByteSize
    hasPendingWrites := true }

/-- `Redis._save_rdb`: persist a snapshot via the external collaborator
(observable here only as a count). -/
def saveRdb (st : ServerState) : ServerState :=
  { st with rdbSaves := st.rdbSaves + 1 }

/-! ### Generation-marker stripping (`_execute_command` lines 182-196).

The loop scans the argument list from the end for the first (i.e. last
positioned) argument starting with `_GEN_`, and breaks there whether or
not its suffix parses as an int; on successful parse that one argument is
popped and the carried generation returned. -/

def stripGenCore : List String → List String × Option Int × Bool
  | [] => ([], none, false)
  | a :: rest =>
    let (rest', g, found) := stripGenCore rest
    if found then (a :: rest', g, true)
    else if pyStartsWith a "_GEN_" then
      match pythonIntParse (pyDrop a 5) with
      | some n => (rest', some n, true)
      | none => (a :: rest', none, true)
    else (a :: rest', none, false)

/-- Returns the argument list after marker removal and the updated
`highest_seen_generation`. -/
def stripGeneration (args : List String) (highest : Int) : List String × Int :=
  match stripGenCore args with
  | (args', some g, _) => (args', if g > highest then g else highest)
  | (args', none, _) => (args', highest)

/-- `write_commands` in `_execute_command`. -/
def writeCommands : List String :=
  ["SET", "INCR", "DEL", "LPUSH", "RPUSH", "HSET", "SADD", "ZADD", "EXPIRE"]

/-! ### Handlers -/

/-- `Redis._forward_write_to_master`.  Python truthiness: an unset, empty
host or zero port counts as "no master configured". -/
def masterConfigured (st : ServerState) : Bool :=
  (match st.masterHost with | some h => decide (h ≠ "") | none => false) &&
  (match st.masterPort with | some p => decide (p ≠ 0) | none => false)

def forwardWriteToMaster (env : Env) (cmd : String) (args : List String)
    (st : ServerState) : ServerState × List Output :=
  if masterConfigured st then
    match env.masterLink with
    | some r => (st, [.forward (encodeArray (cmd :: args)), .bytes r])
    | none =>
      (st, [.bytes (encodeError ("ERR master connection failed: " ++ env.linkErrMsg))])
  else
    (st, [.bytes (encodeError "READONLY You can't write against a read only replica")])

/-- `Redis._handle_set`. -/
def handleSet (env : Env) (args : List String) (st : ServerState) :
    ServerState × List Output :=
  let key := args.headD ""
  let value := (args.drop 1).headD ""
  if 4 ≤ args.length ∧ pyUpper ((args.drop 2).headD "") = "PX" then
    match pythonIntParse ((args.drop 3).headD "") with
    | none => (st, [.bytes (encodeError "value is not an integer or out of range")])
    | some px =>
      let st1 := { st with dataStore := storeSet st.dataStore key (value, some (env.now + px)) }
      let st2 := propagate "SET" ([key, value] ++ args.drop 2) (saveRdb st1)
      (st2, [.bytes (encodeSimpleString "OK")])
  else
    let st1 := { st with dataStore := storeSet st.dataStore key (value, none) }
    let st2 := propagate "SET" ([key, value] ++ args.drop 2) (saveRdb st1)
    (st2, [.bytes (encodeSimpleString "OK")])

/-- `Redis._get_value_from_rdb`. -/
def getValueFromRdb (env : Env) (key : String) : Option String :=
  match slookup env.rdbData key with
  | none => none
  | some (v, none) => some v
  | some (v, some e) => if env.now ≥ e then none else some v

/-- `Redis._handle_get`. -/
def handleGet (env : Env) (args : List String) (st : ServerState) :
    ServerState × List Output :=
  if args.length = 1 then
    let key := args.headD ""
    match slookup st.dataStore key with
    | some (v, _) =>
      if isKeyExpired st.dataStore key env.now then
        ({ st with dataStore := storeDel st.dataStore key }, [.bytes (encodeBulkString none)])
      else
        (st, [.bytes (encodeBulkString (some v))])
    | none =>
      match getValueFromRdb env key with
      | some v =>
        if v = "" then (st, [.bytes (encodeBulkString none)])
        else (st, [.bytes (encodeBulkString (some v))])
      | none => (st, [.bytes (encodeBulkString none)])
  else
    (st, [.bytes (encodeError "wrong number of arguments for 'get' command")])

/-- `Redis._handle_incr`.  The fresh-key branch (key absent or expired)
stores `"1"` with no expiry; the live-key branch parses the current value
as a Python int, and on failure replies an error without touching any
state. -/
def incrFresh (key : String) (st : ServerState) : ServerState × List Output :=
  let st1 := { st with dataStore := storeSet st.dataStore key ("1", none) }
  let st2 := propagate "SET" [key, "1"] (saveRdb st1)
  (st2, [.bytes (encodeInteger 1)])

def handleIncr (env : Env) (args : List String) (st : ServerState) :
    ServerState × List Output :=
  if args.length ≠ 1 then
    (st, [.bytes (encodeError "ERR wrong number of arguments for 'incr' command")])
  else if st.role = "slave" then
    forwardWriteToMaster env "INCR" args st
  else
    let key := args.headD ""
    match slookup st.dataStore key with
    | some (v, exp) =>
      if isKeyExpired st.dataStore key env.now then incrFresh key st
      else
        match pythonIntParse v with
        | some n =>
          let n1 := n + 1
          let st1 := { st with dataStore := storeSet st.dataStore key (toString n1, exp) }
          let st2 := propagate "SET" [key, toString n1] (saveRdb st1)
          (st2, [.bytes (encodeInteger n1)])
        | none =>
          (st, [.bytes (encodeError "ERR value is not an integer or out of range")])
    | none => incrFresh key st

/-- Literal prefix computed by the partial-glob branch of
`_get_matching_keys`: `pattern.split("?")[0].split("[")[0]`. -/
def globPfx (pat : String) : String :=
  (pySplitChar ((pySplitChar pat '?').headD "") '[').headD ""

/-- `Redis._get_matching_keys`.  Returns the matched keys and the (possibly
reloaded) data store: the `"*"` branch reloads from the RDB collaborator
when the in-memory store is empty, and no branch deletes anything. -/
def getMatchingKeys (env : Env) (pat : String) (store : Store) :
    List String × Store :=
  if pat = "*" then
    let store1 := if store.isEmpty then storeUpdate store env.rdbData else store
    ((storeKeys store1).filter (fun k => ¬ isKeyExpired store1 k env.now), store1)
  else if pyContainsChar pat '?' || pyContainsChar pat '[' then
    ((storeKeys store).filter
        (fun k => pyStartsWith k (globPfx pat) ∧ ¬ isKeyExpired store k env.now),
      store)
  else if (slookup store pat).isSome ∧ ¬ isKeyExpired store pat env.now then
    ([pat], store)
  else
    ([], store)

/-- `KEYS` branch of `_execute_command`. -/
def handleKeys (env : Env) (args : List String) (st : ServerState) :
    ServerState × List Output :=
  let pat := args.headD "*"
  let (ks, store1) := getMatchingKeys env pat st.dataStore
  ({ st with dataStore := store1 }, [.bytes (encodeArray ks)])

/-- `Redis._handle_multi`: unconditionally installs a fresh empty queue
for this connection and replies OK. -/
def handleMulti (st : ServerState) : ServerState × List Output :=
  ({ st with txn := some [] }, [.bytes (encodeSimpleString "OK")])

/-- `Redis._execute_transaction_command`: the command subset replayable
from a transaction buffer.  Note that its INCR branch propagates `INCR`
(unlike `_handle_incr`, which propagates an equivalent `SET`). -/
def execTransactionCommand (env : Env) (cmd : String) (args : List String)
    (st : ServerState) : String × ServerState :=
  if cmd = "PING" then ("+PONG\r\n", st)
  else if cmd = "ECHO" ∧ args ≠ [] then (encodeBulkString (some (args.headD "")), st)
  else if cmd = "SET" ∧ 2 ≤ args.length then
    let key := args.headD ""
    let value := (args.drop 1).headD ""
    if 4 ≤ args.length ∧ pyUpper ((args.drop 2).headD "") = "PX" then
      match pythonIntParse ((args.drop 3).headD "") with
      | none => (encodeError "value is not an integer or out of range", st)
      | some px =>
        let st1 := { st with dataStore := storeSet st.dataStore key (value, some (env.now + px)) }
        let st2 := propagate "SET" ([key, value] ++ args.drop 2) (saveRdb st1)
        (encodeSimpleString "OK", st2)
    else
      let st1 := { st with dataStore := storeSet st.dataStore key (value, none) }
      let st2 := propagate "SET" ([key, value] ++ args.drop 2) (saveRdb st1)
      (encodeSimpleString "OK", st2)
  else if cmd = "GET" then
    if args.length = 1 then
      let key := args.headD ""
      match slookup st.dataStore key with
      | some (v, _) =>
        if isKeyExpired st.dataStore key env.now then
          (encodeBulkString none, { st with dataStore := storeDel st.dataStore key })
        else
          (encodeBulkString (some v), st)
      | none => (encodeBulkString none, st)
    else (encodeError "wrong number of arguments for 'get' command", st)
  else if cmd = "INCR" then
    if args.length ≠ 1 then
      (encodeError "wrong number of arguments for 'incr' command", st)
    else
      let key := args.headD ""
      match slookup st.dataStore key with
      | some (v, exp) =>
        if isKeyExpired st.dataStore key env.now then
          let st1 := { st with dataStore := storeSet st.dataStore key ("1", none) }
          (encodeInteger 1, propagate "INCR" [key] (saveRdb st1))
        else
          match pythonIntParse v with
          | some n =>
            let n1 := n + 1
            let st1 := { st with dataStore := storeSet st.dataStore key (toString n1, exp) }
            (encodeInteger n1, propagate "INCR" [key] (saveRdb st1))
          | none => (encodeError "ERR value is not an integer or out of range", st)
      | none =>
        let st1 := { st with dataStore := storeSet st.dataStore key ("1", none) }
        (encodeInteger 1, propagate "INCR" [key] (saveRdb st1))
  else
    (encodeError ("unknown command '" ++ cmd ++ "'"), st)

/-- The EXEC loop over the queued commands, collecting each reply in
enqueue order. -/
def runQueued (env : Env) : List (String × List String) → ServerState →
    List String × ServerState
  | [], st => ([], st)
  | (c, a) :: rest, st =>
    let (r, st1) := execTransactionCommand env c a st
    let (rs, st2) := runQueued env rest st1
    (r :: rs, st2)

/-- `Redis._handle_exec`. -/
def handleExec (env : Env) (st : ServerState) : ServerState × List Output :=
  match st.txn with
  | none => (st, [.bytes (encodeError "ERR EXEC without MULTI")])
  | some [] => ({ st with txn := none }, [.bytes "*0\r\n"])
  | some q =>
    let (rs, st1) := runQueued env q st
    ({ st1 with txn := none },
      [.bytes ("*" ++ toString rs.length ++ "\r\n" ++ String.join rs)])

/-- `Redis._handle_discard`. -/
def handleDiscard (st : ServerState) : ServerState × List Output :=
  match st.txn with
  | none => (st, [.bytes (encodeError "ERR DISCARD without MULTI")])
  | some _ => ({ st with txn := none }, [.bytes (encodeSimpleString "OK")])

/-- Argument parse loop of `CLUSTER MASTER_ANNOUNCE`: the generation
carried by the last well-formed `generation=` argument (initial value 0;
a malformed integer leaves the previously parsed value in place). -/
def announceStep (g : Int) (arg : String) : Int :=
  if pyStartsWith arg "node_id=" then g
  else if pyStartsWith arg "generation=" then
    match pythonIntParse (pyDrop arg 11) with
    | some n => n
    | none => g
  else g

def announcedGeneration (args : List String) : Int :=
  args.foldl announceStep 0

/-- `Redis._handle_cluster_command`. -/
def handleClusterCommand (args : List String) (st : ServerState) :
    ServerState × List Output :=
  match args with
  | [] => (st, [.bytes (encodeError "ERR wrong number of arguments for 'cluster' command")])
  | a :: rest =>
    let sub := pyUpper a
    if sub = "MASTER_ANNOUNCE" then
      let g := announcedGeneration rest
      if g > st.generation ∨ (g = st.generation ∧ st.role = "slave") then
        let st1 :=
          if st.role = "master" then
            { st with role := "slave", electionState := "follower" }
          else st
        let st2 := { st1 with highestSeenGeneration := max st1.highestSeenGeneration g }
        (st2, [.bytes (encodeSimpleString "OK")])
      else
        (st, [.bytes (encodeSimpleString
          ("REJECTED generation=" ++ toString st.generation ++ " role=" ++ st.role))])
    else
      (st, [.bytes (encodeError ("ERR unknown subcommand '" ++ sub ++ "'"))])

/-! ### WAIT (`_execute_command` lines 252-361).

Modelled from the spec: the replica set and
`ReplicationManager.count_acked_replicas` live in `replication.py`, not
under `src/`; per §3/§4.5 each live replica is tagged with its
last-acknowledged offset, so `replicas : List Int` holds those offsets and
`countAcked` counts the replicas that acknowledged at least the target
offset. -/

def countAcked (replicas : List Int) (offset : Int) : Nat :=
  (replicas.filter (fun a => offset ≤ a)).length

/-- The acknowledgment poll loop: each fuel unit is one pass of
`while get_current_time_ms() < end_time`.  `fuel` is the number of clock
reads that fall before `end_time`: since the clock is non-decreasing and
`end_time = start_time + timeout_ms`, it is 0 whenever `timeout_ms <= 0`
and at least 1 whenever `timeout_ms > 0`; `Int.toNat timeout` realises
both.  Acknowledged offsets do not change inside this single-threaded
model, so the count re-read each pass is the constant `cnt`. -/
def pollAcks : Nat → Nat → Int → Nat → Nat
  | 0, _, _, acked => acked
  | fuel + 1, cnt, num, _ =>
    if (cnt : Int) ≥ num then cnt else pollAcks fuel cnt num cnt

/-- Integer replied by WAIT once both arguments have parsed. -/
def waitReply (replicas : List Int) (num timeout : Int) (pending : Bool)
    (offset : Int) : Int :=
  let count := replicas.length
  if count = 0 ∨ num = 0 then 0
  else if pending = false then (count : Int)
  else
    let acked := pollAcks timeout.toNat (countAcked replicas offset) num 0
    min (acked : Int) num

/-- The WAIT branch of `_execute_command`: argument parsing (defaulting to
0) and the reply.  `cleanup_replicas` is the identity here because
`replicas` only holds live connections, and `REPLCONF GETACK` broadcasts
do not touch the observable state. -/
def waitCommand (args : List String) (st : ServerState) :
    ServerState × List Output :=
  match args with
  | [] =>
    (st, [.bytes (encodeInteger
      (waitReply st.replicas 0 0 st.hasPendingWrites st.masterReplOffset))])
  | a :: rest =>
    match pythonIntParse a with
    | none => (st, [.bytes (encodeError "value is not an integer")])
    | some num =>
      match rest with
      | [] =>
        (st, [.bytes (encodeInteger
          (waitReply st.replicas num 0 st.hasPendingWrites st.masterReplOffset))])
      | b :: _ =>
        match pythonIntParse b with
        | none => (st, [.bytes (encodeError "timeout is not an integer")])
        | some t =>
          (st, [.bytes (encodeInteger
            (waitReply st.replicas num t st.hasPendingWrites st.masterReplOffset))])

/-- `Redis.format_info_response` (Python `len` counts code points). -/
def formatInfoResponse (st : ServerState) (section? : Option String) : String :=
  if section? = some "replication" then
    let s := "role:" ++ st.role ++ "\n" ++
      "master_replid:" ++ st.masterReplid ++ "\n" ++
      "master_repl_offset:" ++ toString st.masterReplOffset
    "$" ++ toString s.length ++ "\r\n" ++ s ++ "\r\n"
  else "$-1\r\n"

/-- `Config.get` for the keys the constructor sets. -/
def configGet (env : Env) (param : String) : Option String :=
  if param = "dir" then some env.dirPath
  else if param = "dbfilename" then some env.dbfilename
  else none

/-- CONFIG GET branch of `_execute_command`. -/
def handleConfigGet (env : Env) (args : List String) (st : ServerState) :
    ServerState × List Output :=
  let param := (args.drop 1).headD ""
  let value := match configGet env param with
    | some v => v
    | none => ""
  (st, [.bytes (encodeArray [param, value])])

/-- `Redis._execute_command`: uppercase the command, strip a trailing
generation marker, forward writes when slave, handle MULTI/EXEC/DISCARD,
queue anything else while in a transaction, then dispatch down the
`elif` chain in source order. -/
def executeCommand (env : Env) (cmd0 : String) (args0 : List String)
    (st0 : ServerState) : ServerState × List Output :=
  let cmd := pyUpper cmd0
  let p := stripGeneration args0 st0.highestSeenGeneration
  let args := p.1
  let st := { st0 with highestSeenGeneration := p.2 }
  if st.role = "slave" ∧ writeCommands.contains cmd then
    forwardWriteToMaster env cmd args st
  else if cmd = "MULTI" then handleMulti st
  else if cmd = "EXEC" then handleExec env st
  else if cmd = "DISCARD" then handleDiscard st
  else
    match st.txn with
    | some q =>
      ({ st with txn := some (q ++ [(cmd, args)]) },
        [.bytes (encodeSimpleString "QUEUED")])
    | none =>
      if cmd = "PING" then (st, [.bytes "+PONG\r\n"])
      else if cmd = "ECHO" ∧ args ≠ [] then
        (st, [.bytes (encodeBulkString (some (args.headD "")))])
      else if cmd = "REPLCONF" then (st, [.replconf args])
      else if cmd = "PSYNC" then (st, [.psync args])
      else if cmd = "INFO" then
        (st, [.bytes (formatInfoResponse st (args.head?.map pyLower))])
      else if cmd = "SET" ∧ 2 ≤ args.length then handleSet env args st
      else if cmd = "GET" then handleGet env args st
      else if cmd = "INCR" then handleIncr env args st
      else if cmd = "CONFIG" ∧ 2 ≤ args.length ∧ pyUpper (args.headD "") = "GET" then
        handleConfigGet env args st
      else if cmd = "KEYS" then handleKeys env args st
      else if cmd = "WAIT" then waitCommand args st
      else if cmd = "CLUSTER" then handleClusterCommand args st
      else (st, [.bytes (encodeError "unknown command")])

/-! ### Baseline concrete states shared by the witnesses below. -/

def baseEnv : Env :=
  { now := 0, rdbData := [], masterLink := none, linkErrMsg := "boom",
    dirPath := ".", dbfilename := "dump.rdb" }

def baseState : ServerState :=
  { dataStore := [], txn := none, role := "master", masterReplid := "rid0",
    masterHost := none, masterPort := none, generation := 0,
    highestSeenGeneration := 0, electionState := "leader", replicas := [],
    masterReplOffset := 0, hasPendingWrites := false, props := [],
    rdbSaves := 0 }

example : pythonIntParse "abc" = none := by decide
example : pythonIntParse "1" = some 1 := by decide
example : pythonIntParse " 12 " = some 12 := by decide
example : pythonIntParse "-7" = some (-7) := by decide
example : pythonIntParse "1_0" = some 10 := by decide
example : pythonIntParse "_GEN_7" = none := by decide
example : pythonIntParse "7" = some 7 := by decide

example : stripGeneration ["k", "_GEN_5", "_GEN_7"] 0 = (["k", "_GEN_5"], 7) := by decide
example : stripGeneration ["k", "v"] 3 = (["k", "v"], 3) := by decide
example : stripGeneration ["_GEN_5", "_GEN_abc"] 0 = (["_GEN_5", "_GEN_abc"], 0) := by decide

example :
    (executeCommand baseEnv "SET" ["a", "1"] baseState).2 = [.bytes "+OK\r\n"] := by decide

example :
    (executeCommand baseEnv "EXEC" []
        { baseState with txn := some [("SET", ["a", "1"]), ("INCR", ["a"]), ("GET", ["a"])] }).2 =
      [.bytes "*3\r\n+OK\r\n:2\r\n$1\r\n2\r\n"] := by decide

example :
    slookup (executeCommand baseEnv "EXEC" []
        { baseState with txn := some [("SET", ["a", "1"]), ("INCR", ["a"]), ("GET", ["a"])] }).1.dataStore
        "a" = some ("2", none) := by decide

/-! ### Supporting lemmas -/

theorem slookup_storeSet_self (s : Store) (k : String) (e : Entry) :
    slookup (storeSet s k e) k = some e := by
  induction s with
  | nil => simp [storeSet, slookup]
  | cons kv rest ih =>
    obtain ⟨k0, e0⟩ := kv
    by_cases h : k0 = k
    · simp [storeSet, slookup, h]
    · simp [storeSet, slookup, h, ih]

theorem slookup_eq_none_of_not_mem (s : Store) (k : String)
    (h : k ∉ storeKeys s) : slookup s k = none := by
  induction s with
  | nil => rfl
  | cons kv rest ih =>
    obtain ⟨k0, e0⟩ := kv
    simp only [storeKeys, List.map_cons, List.mem_cons, not_or] at h
    simp only [slookup, if_neg (fun (he : k0 = k) => h.1 he.symm)]
    exact ih h.2

theorem slookup_storeDel_self (s : Store) (k : String)
    (h : (storeKeys s).Nodup) : slookup (storeDel s k) k = none := by
  induction s with
  | nil => rfl
  | cons kv rest ih =>
    obtain ⟨k0, e0⟩ := kv
    simp only [storeKeys, List.map_cons, List.nodup_cons] at h
    by_cases he : k0 = k
    · subst he
      simpa [storeDel] using slookup_eq_none_of_not_mem rest k0 h.1
    · simp only [storeDel, if_neg he, slookup, if_neg he]
      exact ih h.2

theorem runQueued_length (env : Env) (q : List (String × List String))
    (st : ServerState) : (runQueued env q st).1.length = q.length := by
  induction q generalizing st with
  | nil => rfl
  | cons c rest ih => simp [runQueued, ih]

theorem pollAcks_const (fuel cnt : Nat) (num : Int) :
    pollAcks fuel cnt num cnt = cnt := by
  induction fuel with
  | zero => rfl
  | succ n ih => simp [pollAcks, ih]

theorem pollAcks_fuel_pos (fuel cnt : Nat) (num : Int) :
    pollAcks (fuel + 1) cnt num 0 = cnt := by
  by_cases h : (cnt : Int) ≥ num
  · simp [pollAcks, h]
  · simp [pollAcks, h, pollAcks_const]

/-! ### Claims -/

def stWait : ServerState :=
  { baseState with replicas := [10], masterReplOffset := 5, hasPendingWrites := true }

/-- C1: WAIT on the master replies 0 when no replica is connected or
`numreplicas` is 0; replies the connected-replica count when no write has
been accepted as master; otherwise (amended: provided `timeout_ms` is
positive, so that the poll loop runs at least once) replies the minimum of
the count of replicas that acknowledged an offset at least the offset
captured at WAIT-start and `numreplicas`. -/
theorem C1_wait_quorum (replicas : List Int) (num timeout : Int)
    (pending : Bool) (offset : Int) (ht : 1 ≤ timeout) :
    waitReply replicas num timeout pending offset =
      if replicas.length = 0 ∨ num = 0 then 0
      else if pending = false then (replicas.length : Int)
      else min (countAcked replicas offset : Int) num := by
  simp only [waitReply]
  split_ifs with h0 hp
  · rfl
  · rfl
  · obtain ⟨m, hm⟩ : ∃ m, timeout.toNat = m + 1 :=
      ⟨timeout.toNat - 1, by omega⟩
    rw [hm, pollAcks_fuel_pos]

/-- Witness for C1 at a concrete input. -/
theorem C1_wait_quorum_witness :
    waitReply [10, 3] 1 100 true 5 = 1 := by
  rw [C1_wait_quorum [10, 3] 1 100 true 5 (by decide)]
  decide

/-- C1 counterexample: one connected replica that has acknowledged offset
10 (at least the captured offset 5), `numreplicas = 1`, pending writes —
but `timeout_ms = 0`, so the code replies 0 while the claim's formula
demands `min 1 1 = 1`. -/
theorem C1_counterexample :
    (executeCommand baseEnv "WAIT" ["1", "0"] stWait).2 = [Output.bytes ":0\r\n"] ∧
    min (countAcked [10] 5 : Int) 1 = 1 ∧ ((1 : Int) ≠ 0) := by decide

def stTxnIncr : ServerState := { baseState with txn := some [("INCR", ["k"])] }

/-- C2: refuted by the code — an INCR replayed from a transaction buffer
during EXEC is propagated to replicas as `INCR` (first conjunct), not as a
SET of the resulting value, although direct dispatch of INCR does
propagate the equivalent SET (second conjunct).  The spec's convergence
guarantee ("INCR is propagated as an equivalent SET ... so replicas never
need to replay arithmetic") marks the transaction path as the slip. -/
theorem C2_exec_incr_propagates_incr :
    (executeCommand baseEnv "EXEC" [] stTxnIncr).1.props = [("INCR", ["k"])] ∧
    (executeCommand baseEnv "INCR" ["k"] baseState).1.props = [("SET", ["k", "1"])] := by
  decide

/-- C3: a received CLUSTER MASTER_ANNOUNCE is accepted with OK — stepping a
master down to slave, any other role untouched — exactly when the
announced generation is strictly greater than this node's own, or equal
while this node is already a slave; in every other case the full state is
unchanged and the reply is a rejection naming this node's own generation
and role. -/
theorem C3_master_announce (st : ServerState) (rest : List String) :
    if announcedGeneration rest > st.generation ∨
        (announcedGeneration rest = st.generation ∧ st.role = "slave") then
      (handleClusterCommand ("MASTER_ANNOUNCE" :: rest) st).2 =
          [Output.bytes (encodeSimpleString "OK")] ∧
        (handleClusterCommand ("MASTER_ANNOUNCE" :: rest) st).1.role =
          (if st.role = "master" then "slave" else st.role)
    else
      handleClusterCommand ("MASTER_ANNOUNCE" :: rest) st =
        (st, [Output.bytes (encodeSimpleString
          ("REJECTED generation=" ++ toString st.generation ++ " role=" ++ st.role))]) := by
  by_cases h : announcedGeneration rest > st.generation ∨
      (announcedGeneration rest = st.generation ∧ st.role = "slave")
  · rw [if_pos h]
    simp only [handleClusterCommand, show pyUpper "MASTER_ANNOUNCE" = "MASTER_ANNOUNCE" from rfl,
      if_pos rfl, if_pos h]
    by_cases hr : st.role = "master"
    · simp [hr]
    · simp [hr]
  · rw [if_neg h]
    simp only [handleClusterCommand, show pyUpper "MASTER_ANNOUNCE" = "MASTER_ANNOUNCE" from rfl,
      if_pos rfl, if_neg h]
    simp

def slaveSt : ServerState :=
  { baseState with
    role := "slave"
    masterHost := some "127.0.0.1"
    masterPort := some 6380 }

def envLinked : Env := { baseEnv with masterLink := some "+OK\r\n" }

/-- C4: a client write command received while this node is a slave leaves
the keyspace (and the propagation log) untouched; if a master is
configured the command frame is forwarded and the master's literal reply
is relayed to the client (with the IO-failure reply when the link is
down), and otherwise the client gets the read-only-replica error. -/
theorem C4_slave_write_forwarding (env : Env) (cmd : String)
    (args : List String) (st : ServerState) (hrole : st.role = "slave")
    (hw : writeCommands.contains (pyUpper cmd) = true) :
    (executeCommand env cmd args st).1.dataStore = st.dataStore ∧
    (executeCommand env cmd args st).1.props = st.props ∧
    (executeCommand env cmd args st).2 =
      (if masterConfigured st then
        match env.masterLink with
        | some r =>
          [Output.forward (encodeArray
            (pyUpper cmd :: (stripGeneration args st.highestSeenGeneration).1)),
            Output.bytes r]
        | none =>
          [Output.bytes (encodeError ("ERR master connection failed: " ++ env.linkErrMsg))]
      else
        [Output.bytes (encodeError "READONLY You can't write against a read only replica")]) := by
  have hcond : ({ st with highestSeenGeneration :=
      (stripGeneration args st.highestSeenGeneration).2 } : ServerState).role = "slave" ∧
      writeCommands.contains (pyUpper cmd) = true := ⟨hrole, hw⟩
  simp only [executeCommand, if_pos hcond, forwardWriteToMaster]
  by_cases hc : masterConfigured st = true
  · rw [if_pos hc]
    have hc2 : masterConfigured { st with highestSeenGeneration :=
        (stripGeneration args st.highestSeenGeneration).2 } = true := hc
    rw [if_pos hc2]
    cases env.masterLink <;> simp
  · rw [if_neg hc]
    have hc2 : ¬ masterConfigured { st with highestSeenGeneration :=
        (stripGeneration args st.highestSeenGeneration).2 } = true := hc
    rw [if_neg hc2]
    simp

/-- Witness for C4: a lowercase client `set` on a configured slave. -/
theorem C4_slave_write_forwarding_witness :
    (executeCommand envLinked "set" ["k", "v"] slaveSt).1.dataStore = slaveSt.dataStore ∧
    (executeCommand envLinked "set" ["k", "v"] slaveSt).2 =
      [Output.forward (encodeArray ["SET", "k", "v"]), Output.bytes "+OK\r\n"] := by
  have h := C4_slave_write_forwarding envLinked "set" ["k", "v"] slaveSt rfl (by decide)
  refine ⟨h.1, ?_⟩
  rw [h.2.2]
  decide

def stTxnABC : ServerState :=
  { baseState with txn := some [("SET", ["a", "1"]), ("INCR", ["a"]), ("GET", ["a"])] }

/-- C5: EXEC on a non-empty transaction buffer runs every queued command
in enqueue order, collecting exactly one reply per queued command, clears
the transaction, and emits the single array frame holding those replies in
order; in particular the buffer [SET a 1, INCR a, GET a] yields exactly
the frame with OK, `:2` and `$1\r\n2\r\n`, with both writes visible
afterwards. -/
theorem C5_exec_transaction :
    (∀ env st q, st.txn = some q → q ≠ [] →
        handleExec env st =
          ({ (runQueued env q st).2 with txn := none },
            [Output.bytes ("*" ++ toString (runQueued env q st).1.length ++ "\r\n" ++
              String.join (runQueued env q st).1)]) ∧
        (runQueued env q st).1.length = q.length) ∧
    ((executeCommand baseEnv "EXEC" [] stTxnABC).2 =
        [Output.bytes "*3\r\n+OK\r\n:2\r\n$1\r\n2\r\n"] ∧
      slookup (executeCommand baseEnv "EXEC" [] stTxnABC).1.dataStore "a" =
        some ("2", none)) := by
  constructor
  · intro env st q hq hne
    constructor
    · cases q with
      | nil => exact absurd rfl hne
      | cons c rest => simp only [handleExec, hq]
    · exact runQueued_length env q st
  · exact ⟨by decide, by decide⟩

/-- Witness for C5: the general statement applied to the concrete
three-command buffer. -/
theorem C5_exec_transaction_witness :
    (runQueued baseEnv [("SET", ["a", "1"]), ("INCR", ["a"]), ("GET", ["a"])] stTxnABC).1.length = 3 := by
  have h := C5_exec_transaction.1 baseEnv stTxnABC
    [("SET", ["a", "1"]), ("INCR", ["a"]), ("GET", ["a"])] rfl (by decide)
  rw [h.2]
  rfl

/-- C6 counterexample: a connection already IN_TRANSACTION with one
buffered command issues MULTI again; the buffer afterwards is `some []`,
not the original queue, refuting "its queue of already-buffered commands
is unchanged". -/
theorem C6_counterexample :
    (executeCommand baseEnv "MULTI" []
        { baseState with txn := some [("SET", ["a", "1"])] }).1.txn = some [] ∧
    (some [("SET", ["a", "1"])] ≠ (some [] : Option (List (String × List String)))) := by
  decide

/-- C6 (amended): MULTI while already IN_TRANSACTION replies OK and the
connection stays IN_TRANSACTION, but the queue of already-buffered
commands is reset to empty rather than left unchanged
(`_handle_multi` unconditionally installs a fresh queue). -/
theorem C6_multi_reentrant_resets (env : Env) (st : ServerState)
    (q : List (String × List String)) :
    executeCommand env "MULTI" [] { st with txn := some q } =
      ({ st with txn := some [] }, [Output.bytes (encodeSimpleString "OK")]) := by
  have hw : writeCommands.contains (pyUpper "MULTI") = false := by decide
  simp only [executeCommand, stripGeneration, stripGenCore, pyUpper, hw]
  simp only [handleMulti]
  simp
  intro _ hmem
  exact absurd hmem (by decide)

/-- C7: INCR on an absent-or-expired key stores `"1"` and replies the
integer 1; INCR on a live key whose value does not parse as a base-10
integer replies an error and leaves the whole state — in particular the
key's old value — untouched. -/
theorem C7_increment :
    (∀ env st key, st.role ≠ "slave" →
        isKeyExpired st.dataStore key env.now = true →
        (handleIncr env [key] st).1.dataStore = storeSet st.dataStore key ("1", none) ∧
        slookup (handleIncr env [key] st).1.dataStore key = some ("1", none) ∧
        (handleIncr env [key] st).2 = [Output.bytes (encodeInteger 1)]) ∧
    (∀ env st key v exp, st.role ≠ "slave" →
        slookup st.dataStore key = some (v, exp) →
        isKeyExpired st.dataStore key env.now = false →
        pythonIntParse v = none →
        handleIncr env [key] st =
          (st, [Output.bytes (encodeError "ERR value is not an integer or out of range")])) := by
  constructor
  · intro env st key hrole hexp
    have hrun : handleIncr env [key] st = incrFresh key st := by
      cases hl : slookup st.dataStore key with
      | none => simp [handleIncr, hrole, hl]
      | some ve => simp [handleIncr, hrole, hl, hexp]
    rw [hrun]
    exact ⟨rfl, slookup_storeSet_self _ _ _, rfl⟩
  · intro env st key v exp hrole hl hexp hparse
    simp [handleIncr, hrole, hl, hexp, hparse]

/-- Witness for C7: both parts at concrete inputs. -/
theorem C7_increment_witness :
    (handleIncr baseEnv ["k"] baseState).2 = [Output.bytes ":1\r\n"] ∧
    handleIncr baseEnv ["k"] { baseState with dataStore := [("k", ("abc", none))] } =
      ({ baseState with dataStore := [("k", ("abc", none))] },
        [Output.bytes "-ERR value is not an integer or out of range\r\n"]) := by
  constructor
  · have h := C7_increment.1 baseEnv baseState "k" (by decide) (by decide)
    rw [h.2.2]
    rfl
  · have h := C7_increment.2 baseEnv
      { baseState with dataStore := [("k", ("abc", none))] } "k" "abc" none
      (by decide) (by decide) (by decide) (by decide)
    rw [h]
    rfl

theorem getMatchingKeys_snd (env : Env) (pat : String) (store : Store)
    (h : store ≠ []) : (getMatchingKeys env pat store).2 = store := by
  have hne : store.isEmpty = false := by
    cases store with
    | nil => exact absurd rfl h
    | cons kv rest => rfl
  unfold getMatchingKeys
  rw [hne]
  split_ifs
  all_goals first
  | rfl
  | exact (‹False›).elim

/-- C8 counterexample: at time 10 a scan (`KEYS *`) over a keyspace whose
single entry expired at time 5 returns no keys but leaves the expired
entry in the store — the scan does not purge it, refuting "purged from the
Keyspace on the next access, whether that access is a read ... or a
scan". -/
theorem C8_counterexample :
    getMatchingKeys { baseEnv with now := 10 } "*" [("k", ("v", some 5))] =
      ([], [("k", ("v", some 5))]) ∧
    slookup [("k", ("v", some 5))] "k" = some ("v", some 5) := by decide

/-- C8 (amended): an entry with a past expiry is logically absent — a read
(GET) purges it from the Keyspace and returns absent, and a scan (KEYS)
never returns it — but only the read deletes it: no scan branch removes or
modifies any stored entry. -/
theorem C8_lazy_expiry :
    (∀ env st key v e, slookup st.dataStore key = some (v, some e) →
        e ≤ env.now → (storeKeys st.dataStore).Nodup →
        handleGet env [key] st =
          ({ st with dataStore := storeDel st.dataStore key },
            [Output.bytes (encodeBulkString none)]) ∧
        slookup (storeDel st.dataStore key) key = none) ∧
    (∀ env pat store k ent, slookup store k = some ent →
        slookup (getMatchingKeys env pat store).2 k = some ent) ∧
    (∀ env pat store k, k ∈ (getMatchingKeys env pat store).1 →
        isKeyExpired (getMatchingKeys env pat store).2 k env.now = false) := by
  refine ⟨?_, ?_, ?_⟩
  · intro env st key v e hl he hnd
    have hexp : isKeyExpired st.dataStore key env.now = true := by
      simp [isKeyExpired, hl, he]
    constructor
    · simp [handleGet, hl, hexp]
    · exact slookup_storeDel_self _ _ hnd
  · intro env pat store k ent hl
    have hne : store ≠ [] := by
      intro hnil
      rw [hnil] at hl
      exact Option.noConfusion hl
    rw [getMatchingKeys_snd env pat store hne]
    exact hl
  · intro env pat store k hmem
    unfold getMatchingKeys at hmem ⊢
    by_cases h1 : pat = "*"
    · rw [if_pos h1] at hmem ⊢
      dsimp only at hmem ⊢
      rw [List.mem_filter] at hmem
      simpa using hmem.2
    · rw [if_neg h1] at hmem ⊢
      by_cases h2 : (pyContainsChar pat '?' || pyContainsChar pat '[') = true
      · rw [if_pos h2] at hmem ⊢
        dsimp only at hmem ⊢
        rw [List.mem_filter] at hmem
        have hp := of_decide_eq_true hmem.2
        simpa using hp.2
      · rw [if_neg h2] at hmem ⊢
        by_cases h3 : (slookup store pat).isSome = true ∧
            ¬ isKeyExpired store pat env.now = true
        · rw [if_pos h3] at hmem ⊢
          dsimp only at hmem ⊢
          simp only [List.mem_singleton] at hmem
          subst hmem
          simpa using h3.2
        · rw [if_neg h3] at hmem
          simp at hmem

/-- Witness for C8 at concrete inputs: the expired-read purge and the
scan-preserves-entries part. -/
theorem C8_lazy_expiry_witness :
    handleGet { baseEnv with now := 10 } ["k"]
        { baseState with dataStore := [("k", ("v", some 5))] } =
      ({ baseState with dataStore := [] }, [Output.bytes "$-1\r\n"]) ∧
    slookup (getMatchingKeys { baseEnv with now := 10 } "*"
        [("k", ("v", some 5))]).2 "k" = some ("v", some 5) := by
  constructor
  · have h := C8_lazy_expiry.1 { baseEnv with now := 10 }
      { baseState with dataStore := [("k", ("v", some 5))] } "k" "v" 5
      (by decide) (by decide) (by decide)
    rw [h.1]
    rfl
  · exact C8_lazy_expiry.2.1 { baseEnv with now := 10 } "*"
      [("k", ("v", some 5))] "k" ("v", some 5) (by decide)

def store9 : Store := [("a[b", ("v", none)), ("ac", ("w", none))]

/-- C9 counterexample: the pattern `a[b` equals an existing live key, yet
`keys_matching` returns both `a[b` and `ac` (the `[` sends it down the
prefix branch with literal prefix `a`), refuting "a pattern equal to an
existing live key returns exactly that key". -/
theorem C9_counterexample :
    slookup store9 "a[b" = some ("v", none) ∧
    isKeyExpired store9 "a[b" baseEnv.now = false ∧
    (getMatchingKeys baseEnv "a[b" store9).1 = ["a[b", "ac"] ∧
    (["a[b", "ac"] : List String) ≠ ["a[b"] := by decide

/-- C9 (amended): `keys_matching` treats only `?` and `[` as wildcard
characters.  The pattern `*` returns exactly the live keys of the
(possibly RDB-reloaded) store; a pattern containing `?` or `[` returns
exactly the live keys sharing the literal prefix of the pattern up to the
first such character; any other pattern is an exact lookup returning the
pattern itself iff it is a live key (so a live key whose name contains `?`
or `[` is matched by the prefix rule instead, and a pattern containing
only `*` as a wildcard is matched literally). -/
theorem C9_keys_matching :
    (∀ env store k,
        k ∈ (getMatchingKeys env "*" store).1 ↔
          (k ∈ storeKeys (getMatchingKeys env "*" store).2 ∧
            isKeyExpired (getMatchingKeys env "*" store).2 k env.now = false)) ∧
    (∀ env pat store k,
        (pyContainsChar pat '?' || pyContainsChar pat '[') = true →
        (k ∈ (getMatchingKeys env pat store).1 ↔
          (k ∈ storeKeys store ∧ pyStartsWith k (globPfx pat) = true ∧
            isKeyExpired store k env.now = false))) ∧
    (∀ env pat store, pat ≠ "*" →
        (pyContainsChar pat '?' || pyContainsChar pat '[') = false →
        (getMatchingKeys env pat store).1 =
          (if (slookup store pat).isSome ∧ isKeyExpired store pat env.now = false
            then [pat] else [])) := by
  refine ⟨?_, ?_, ?_⟩
  · intro env store k
    unfold getMatchingKeys
    rw [if_pos (rfl : ("*" : String) = "*")]
    dsimp only
    rw [List.mem_filter]
    simp
  · intro env pat store k hwc
    have h1 : pat ≠ "*" := by
      intro hp
      rw [hp] at hwc
      exact absurd hwc (by decide)
    unfold getMatchingKeys
    rw [if_neg h1, if_pos hwc]
    dsimp only
    rw [List.mem_filter]
    constructor
    · rintro ⟨hm, hp⟩
      have hp2 := of_decide_eq_true hp
      exact ⟨hm, hp2.1, by simpa using hp2.2⟩
    · rintro ⟨hm, hs, he⟩
      exact ⟨hm, decide_eq_true ⟨hs, by simp [he]⟩⟩
  · intro env pat store h1 hwc
    have hwcn : ¬ ((pyContainsChar pat '?' || pyContainsChar pat '[') = true) := by
      simp [hwc]
    unfold getMatchingKeys
    rw [if_neg h1, if_neg hwcn]
    by_cases h3 : (slookup store pat).isSome = true ∧
        ¬ isKeyExpired store pat env.now = true
    · rw [if_pos h3,
        if_pos (show (slookup store pat).isSome = true ∧
          isKeyExpired store pat env.now = false from ⟨h3.1, by simpa using h3.2⟩)]
    · rw [if_neg h3,
        if_neg (show ¬ ((slookup store pat).isSome = true ∧
          isKeyExpired store pat env.now = false) from
          fun hc => h3 ⟨hc.1, by simp [hc.2]⟩)]

/-- Witness for C9 at concrete inputs: all three branches. -/
theorem C9_keys_matching_witness :
    ("k" ∈ (getMatchingKeys baseEnv "*" [("k", ("v", none))]).1) ∧
    ("ab" ∈ (getMatchingKeys baseEnv "a?" [("ab", ("v", none))]).1) ∧
    (getMatchingKeys baseEnv "ab*" [("abc", ("v", none))]).1 = [] := by
  refine ⟨?_, ?_, ?_⟩
  · exact (C9_keys_matching.1 baseEnv [("k", ("v", none))] "k").mpr (by decide)
  · exact (C9_keys_matching.2.1 baseEnv "a?" [("ab", ("v", none))] "ab"
      (by decide)).mpr (by decide)
  · rw [C9_keys_matching.2.2 baseEnv "ab*" [("abc", ("v", none))]
      (by decide) (by decide)]
    decide

theorem stripGenCore_no_marker (l : List String)
    (h : ∀ b ∈ l, pyStartsWith b "_GEN_" = false) :
    stripGenCore l = (l, none, false) := by
  induction l with
  | nil => rfl
  | cons a rest ih =>
    have ha := h a (List.mem_cons_self a rest)
    have hrest := ih (fun b hb => h b (List.mem_cons_of_mem a hb))
    simp [stripGenCore, hrest, ha]

theorem stripGenCore_found_cons (x : String) (l : List String)
    (h : (stripGenCore l).2.2 = true) :
    stripGenCore (x :: l) =
      (x :: (stripGenCore l).1, (stripGenCore l).2.1, true) := by
  simp [stripGenCore, h]

/-- C10 (amended): only the last `_GEN_`-prefixed argument is examined by
the dispatcher; when its suffix parses as a decimal integer `g`, exactly
that one argument is removed before routing and
`highest_seen_generation` becomes `max` of its old value and `g`.
Earlier marker-shaped arguments survive (so SET can still store a value
of that shape, as the counterexample shows). -/
theorem C10_generation_marker (pre post : List String) (a : String)
    (g hi : Int) (hpost : ∀ b ∈ post, pyStartsWith b "_GEN_" = false)
    (ha : pyStartsWith a "_GEN_" = true)
    (hg : pythonIntParse (pyDrop a 5) = some g) :
    stripGeneration (pre ++ a :: post) hi = (pre ++ post, max hi g) := by
  have hcore : stripGenCore (pre ++ a :: post) = (pre ++ post, some g, true) := by
    induction pre with
    | nil =>
      simp only [List.nil_append]
      simp [stripGenCore, stripGenCore_no_marker post hpost, ha, hg]
    | cons x rest ih =>
      rw [List.cons_append, stripGenCore_found_cons x _ (by rw [ih]), ih]
      rfl
  unfold stripGeneration
  rw [hcore]
  show (pre ++ post, if g > hi then g else hi) = (pre ++ post, max hi g)
  rcases lt_or_ge hi g with h2 | h2
  · rw [if_pos h2, max_eq_right h2.le]
  · rw [if_neg (not_lt.mpr h2), max_eq_left h2]

/-- Witness for C10: the marker `_GEN_9` is removed even with a
marker-shaped argument before it, and the generation is raised. -/
theorem C10_generation_marker_witness :
    stripGeneration ["_GEN_3", "_GEN_9", "v"] 2 = (["_GEN_3", "v"], 9) := by
  have h := C10_generation_marker ["_GEN_3"] ["v"] "_GEN_9" 9 2
    (by decide) (by decide) (by decide)
  exact h.trans (by decide)

/-- C10 counterexample: with arguments `k _GEN_5 _GEN_7` only the last
marker is stripped; `_GEN_5` — the string `_GEN_` followed by a decimal
integer, in a non-final position — survives, and `SET` stores it as the
value of `k`, refuting both "any argument (in any position ...) is
removed" and "a value of that form can never be stored via SET". -/
theorem C10_counterexample :
    stripGeneration ["k", "_GEN_5", "_GEN_7"] 0 = (["k", "_GEN_5"], 7) ∧
    pyStartsWith "_GEN_5" "_GEN_" = true ∧
    pythonIntParse (pyDrop "_GEN_5" 5) = some 5 ∧
    slookup (executeCommand baseEnv "SET" ["k", "_GEN_5", "_GEN_7"]
        baseState).1.dataStore "k" = some ("_GEN_5", none) := by decide

end RedisModel
